import Mathlib

/-!
Verification of the RISC-V runtime-entry bridge (runtime_entry_riscv.cc).

The file shallowly embeds the two functions of the source file:

* `RuntimeEntry::GetEntryPoint` — resolves a runtime-entry descriptor to the
  address generated code should jump to.  Under the simulator it asserts the
  leaf argument-count budget and asks the simulator for a redirection keyed by
  (function pointer, call kind, argument count).  A failed `ASSERT` is fatal,
  which the embedding models by returning `none`.  The simulator's redirection
  map is outside the source file, so it is a function parameter `redirect`.

* `RuntimeEntry::CallInternal` — emits the instruction sequence for one call
  site: a leaf sequence (load entry from the per-thread table, set the VM tag,
  reserve aligned outgoing space, jump through the loaded register, restore
  the Dart tag on return) or the non-leaf sequence (load address into T5,
  argument count into T4, jump to the shared runtime-call stub).  Emission is
  modelled as producing a `List Instr`; the fatal leaf arity `ASSERT` is again
  `none`.

The concrete register-role assignments, thread offsets and the VM-tag value
live in headers that are not part of the source file; they are modelled from
the spec where needed and clearly marked as such.
-/

namespace RuntimeEntryRiscv

/-- Machine registers of the RISC-V target, by their ABI names. -/
inductive Register where
  | zero | ra | sp | gp | tp
  | t0 | t1 | t2
  | s0 | s1
  | a0 | a1 | a2 | a3 | a4 | a5 | a6 | a7
  | s2 | s3 | s4 | s5 | s6 | s7 | s8 | s9 | s10 | s11
  | t3 | t4 | t5 | t6
  deriving DecidableEq, Repr

/-- Modelled from the spec: the callee-saved predicate of constants_riscv.h is
not in the source tree; per the standard RISC-V calling convention the
callee-saved general-purpose registers are s0–s11. -/
def IsCalleeSavedRegister (r : Register) : Bool :=
  match r with
  | .s0 | .s1 | .s2 | .s3 | .s4 | .s5 | .s6 | .s7 | .s8 | .s9 | .s10 | .s11 => true
  | _ => false

/-- Modelled from the spec: the ABI-preserved set coincides with the
callee-saved s-registers; the pool pointer is deliberately placed outside it. -/
def IsAbiPreservedRegister (r : Register) : Bool :=
  IsCalleeSavedRegister r

/-- Modelled from the spec: the concrete register-role assignments of
constants_riscv.h are not in the source tree.  The roles that the source's
COMPILE_ASSERTs require to be callee-saved (thread context, null sentinel,
write-barrier mask, dispatch table) are mapped to s-registers, and the pool
pointer to `gp`, which the ABI does not preserve. -/
def THR : Register := .s1

/-- Modelled from the spec: role register holding the write-barrier mask. -/
def WRITE_BARRIER_MASK : Register := .s2

/-- Modelled from the spec: role register holding the null sentinel. -/
def NULL_REG : Register := .s3

/-- Modelled from the spec: role register holding the dispatch table. -/
def DISPATCH_TABLE_REG : Register := .s4

/-- Modelled from the spec: the pool pointer, a register the ABI does not
preserve, hence the caller saves it around leaf calls. -/
def PP : Register := .gp

/-- Modelled from the spec: the second VM scratch register, `t5`. -/
def TMP2 : Register := .t5

/-- Register `t4`, named explicitly in the non-leaf path of the source. -/
def T4 : Register := .t4

/-- Register `t5`, named explicitly in the non-leaf path of the source. -/
def T5 : Register := .t5

/-- Runtime Entry Descriptor: immutable metadata for one callable native
function (fields as read by runtime_entry_riscv.cc via the accessors
`function()`, `argument_count()`, `is_leaf()`, `is_float()`). -/
structure RuntimeEntry where
  name : String
  function_pointer : Nat
  argument_count : Int
  is_leaf : Bool
  is_float : Bool
  deriving DecidableEq, Repr

/-- Simulator call kinds, as in `Simulator::CallKind`. -/
inductive CallKind where
  | kRuntimeCall
  | kLeafRuntimeCall
  | kLeafFloatRuntimeCall
  deriving DecidableEq, Repr

/-- Call-kind derivation from the descriptor flags, exactly the conditional
expression in `RuntimeEntry::GetEntryPoint`. -/
def callKindOf (e : RuntimeEntry) : CallKind :=
  if e.is_leaf then
    (if e.is_float then .kLeafFloatRuntimeCall else .kLeafRuntimeCall)
  else .kRuntimeCall

/-- Shallow embedding of `RuntimeEntry::GetEntryPoint`.  `redirect` stands for
`Simulator::RedirectExt...Reference` (outside this file); `usingSimulator`
selects the `USING_SIMULATOR` build.  The two `ASSERT`s are fatal, modelled as
`none`; the second is transcribed literally from the source:
`!is_leaf() || (!is_float() && argument_count() <= 4) || (argument_count() <= 2)`. -/
def GetEntryPoint (redirect : Nat → CallKind → Int → Nat) (usingSimulator : Bool)
    (e : RuntimeEntry) : Option Nat :=
  let entry := e.function_pointer
  if usingSimulator then
    if !decide (0 ≤ e.argument_count) then none
    else if !(!e.is_leaf || (!e.is_float && decide (e.argument_count ≤ 4))
        || decide (e.argument_count ≤ 2)) then none
    else some (redirect entry (callKindOf e) e.argument_count)
  else
    some entry

/-- Modelled from the spec: `VMTag::kDartTagId`, the generic "executing
managed code" marker, whose concrete value (vm_tag.h) is not in the source
tree; only its identity matters here. -/
def kDartTagId : Int := 2

/-- Instructions the emitter can produce, one constructor per assembler call
appearing in `RuntimeEntry::CallInternal`.  Loads and stores carry the base
register and the byte offset of their address operand. -/
inductive Instr where
  | lx (rd : Register) (base : Register) (offset : Int)
  | sx (rs : Register) (base : Register) (offset : Int)
  | reserveAlignedFrameSpace (frame_space : Int)
  | jalr (rs : Register)
  | li (rd : Register) (imm : Int)
  | jumpAndLinkToRuntime
  deriving DecidableEq, Repr

/-- Thread-layout context: `Thread::OffsetFromThread(runtime_entry)` (the
per-thread entry-point table slot of a descriptor) and
`Thread::vm_tag_offset()`, both defined outside this file. -/
structure ThreadLayout where
  offsetFromThread : RuntimeEntry → Int
  vm_tag_offset : Int

/-- Shallow embedding of `RuntimeEntry::CallInternal`: the instruction
sequence emitted for one call site.  The leaf path's fatal
`ASSERT(argument_count == runtime_entry->argument_count())` is modelled as
`none`; the non-leaf path performs no arity check.  The leaf path's
COMPILE_ASSERTs are static facts about the register assignment, proved
separately below. -/
def CallInternal (layout : ThreadLayout) (runtime_entry : RuntimeEntry)
    (argument_count : Int) : Option (List Instr) :=
  if runtime_entry.is_leaf then
    if argument_count = runtime_entry.argument_count then
      some [Instr.lx TMP2 THR (layout.offsetFromThread runtime_entry),
            Instr.sx TMP2 THR layout.vm_tag_offset,
            Instr.reserveAlignedFrameSpace 0,
            Instr.jalr TMP2,
            Instr.li TMP2 kDartTagId,
            Instr.sx TMP2 THR layout.vm_tag_offset]
    else none
  else
    some [Instr.lx T5 THR (layout.offsetFromThread runtime_entry),
          Instr.li T4 argument_count,
          Instr.jumpAndLinkToRuntime]

/-- Data state of the target machine: a register file and a flat memory. -/
structure MachineState where
  regs : Register → Int
  mem : Int → Int

/-- Write a register. -/
def setReg (s : MachineState) (r : Register) (v : Int) : MachineState :=
  { s with regs := fun r2 => if r2 = r then v else s.regs r2 }

/-- Write a memory cell. -/
def store (s : MachineState) (a v : Int) : MachineState :=
  { s with mem := fun a2 => if a2 = a then v else s.mem a2 }

/-- Data semantics of one emitted instruction.  `reserveAlignedFrameSpace`
lowers and 16-byte-aligns the stack pointer and touches nothing else; the two
control-transfer instructions do not change the data state (execution here
tracks the state up to the moment of transfer). -/
def step (s : MachineState) : Instr → MachineState
  | .lx rd base off => setReg s rd (s.mem (s.regs base + off))
  | .sx rs base off => store s (s.regs base + off) (s.regs rs)
  | .reserveAlignedFrameSpace frame_space =>
      setReg s .sp ((s.regs .sp - frame_space) / 16 * 16)
  | .jalr _ => s
  | .li rd imm => setReg s rd imm
  | .jumpAndLinkToRuntime => s

/-- Run a list of emitted instructions from a state. -/
def execList (s : MachineState) : List Instr → MachineState
  | [] => s
  | i :: rest => execList (step s i) rest

/-- A sample thread layout for concrete evaluations. -/
def sampleLayout : ThreadLayout :=
  { offsetFromThread := fun _ => 64, vm_tag_offset := 8 }

/-- A leaf descriptor that violates the §3 budget: five integer arguments. -/
def overBudgetLeaf : RuntimeEntry :=
  { name := "OverBudget", function_pointer := 100, argument_count := 5,
    is_leaf := true, is_float := false }

/-- A well-formed leaf descriptor with one integer argument. -/
def leafEntry : RuntimeEntry :=
  { name := "Leaf", function_pointer := 300, argument_count := 1,
    is_leaf := true, is_float := false }

/-- A non-leaf descriptor with two arguments, as in Scenario A. -/
def allocEntry : RuntimeEntry :=
  { name := "Alloc", function_pointer := 400, argument_count := 2,
    is_leaf := false, is_float := false }

/-- The leaf float descriptor of Scenario B. -/
def sineEntry : RuntimeEntry :=
  { name := "Sine", function_pointer := 200, argument_count := 1,
    is_leaf := true, is_float := true }

/-- A concrete machine state for witness evaluations. -/
def sampleState : MachineState :=
  { regs := fun _ => 5, mem := fun a => a + 11 }

/-- C1: under simulation, resolving a leaf descriptor asserts the
argument-count budget before requesting redirection: a leaf descriptor with
is_float = false and argument_count > 4, or is_float = true and
argument_count > 2, makes resolution fail the fatal assertion (no handle is
returned, whatever the redirection map is); a leaf descriptor within the
budget resolves to a redirection handle. -/
theorem c1_leaf_budget_assert (redirect : Nat → CallKind → Int → Nat)
    (e : RuntimeEntry) (hleaf : e.is_leaf = true) :
    ((e.is_float = false ∧ 4 < e.argument_count) ∨
      (e.is_float = true ∧ 2 < e.argument_count) →
      GetEntryPoint redirect true e = none) ∧
    (0 ≤ e.argument_count →
      (e.is_float = false → e.argument_count ≤ 4) →
      (e.is_float = true → e.argument_count ≤ 2) →
      GetEntryPoint redirect true e =
        some (redirect e.function_pointer (callKindOf e) e.argument_count)) := by
  constructor
  · rintro (⟨hf, hc⟩ | ⟨hf, hc⟩) <;>
      simp [GetEntryPoint, hleaf, hf] <;> omega
  · intro h0 h4 h2
    cases hf : e.is_float
    · have hle := h4 hf
      simp [GetEntryPoint, hleaf, hf, h0, hle]
    · have hle := h2 hf
      simp [GetEntryPoint, hleaf, hf, h0, hle]

/-- Witness for C1: a leaf float descriptor with three arguments fails
resolution under simulation. -/
theorem c1_witness :
    GetEntryPoint (fun a _ _ => a) true
      { name := "BadLeafFloat", function_pointer := 10, argument_count := 3,
        is_leaf := true, is_float := true } = none :=
  (c1_leaf_budget_assert (fun a _ _ => a) _ rfl).1 (Or.inr ⟨rfl, by decide⟩)

/-- C2: for a leaf descriptor the emitted sequence is, in order: load the
entry address from the descriptor's per-thread table slot into the scratch
register, store it into the thread's VM-tag slot, reserve aligned outgoing
stack space (no full frame), jump through the scratch register directly to
the native implementation, and after return store kDartTagId back into the
VM-tag slot; the shared runtime-call stub is never used. -/
theorem c2_leaf_sequence (layout : ThreadLayout) (e : RuntimeEntry)
    (argument_count : Int) (hleaf : e.is_leaf = true)
    (harity : argument_count = e.argument_count) :
    CallInternal layout e argument_count =
      some [Instr.lx TMP2 THR (layout.offsetFromThread e),
            Instr.sx TMP2 THR layout.vm_tag_offset,
            Instr.reserveAlignedFrameSpace 0,
            Instr.jalr TMP2,
            Instr.li TMP2 kDartTagId,
            Instr.sx TMP2 THR layout.vm_tag_offset] ∧
    ∀ l, CallInternal layout e argument_count = some l →
      Instr.jumpAndLinkToRuntime ∉ l := by
  have h : CallInternal layout e argument_count =
      some [Instr.lx TMP2 THR (layout.offsetFromThread e),
            Instr.sx TMP2 THR layout.vm_tag_offset,
            Instr.reserveAlignedFrameSpace 0,
            Instr.jalr TMP2,
            Instr.li TMP2 kDartTagId,
            Instr.sx TMP2 THR layout.vm_tag_offset] := by
    simp [CallInternal, hleaf, harity]
  refine ⟨h, ?_⟩
  intro l hl
  rw [h] at hl
  cases hl
  simp

/-- Witness for C2: the leaf sequence emitted for a concrete descriptor. -/
theorem c2_witness :
    CallInternal sampleLayout leafEntry 1 =
      some [Instr.lx TMP2 THR 64, Instr.sx TMP2 THR 8,
            Instr.reserveAlignedFrameSpace 0, Instr.jalr TMP2,
            Instr.li TMP2 kDartTagId, Instr.sx TMP2 THR 8] ∧
    ∀ l, CallInternal sampleLayout leafEntry 1 = some l →
      Instr.jumpAndLinkToRuntime ∉ l :=
  c2_leaf_sequence sampleLayout leafEntry 1 rfl rfl

/-- C3: for a non-leaf descriptor and any caller-supplied argument count, the
emitted sequence loads the entry address from the per-thread table into T5,
then the literal argument count into T4, then jumps to the shared
runtime-call stub, in exactly that order. -/
theorem c3_nonleaf_sequence (layout : ThreadLayout) (e : RuntimeEntry)
    (argument_count : Int) (hnonleaf : e.is_leaf = false) :
    CallInternal layout e argument_count =
      some [Instr.lx T5 THR (layout.offsetFromThread e),
            Instr.li T4 argument_count,
            Instr.jumpAndLinkToRuntime] := by
  simp [CallInternal, hnonleaf]

/-- Witness for C3: Scenario A, the non-leaf descriptor Alloc called with
argument count 2. -/
theorem c3_witness :
    CallInternal sampleLayout allocEntry 2 =
      some [Instr.lx T5 THR 64, Instr.li T4 2, Instr.jumpAndLinkToRuntime] :=
  c3_nonleaf_sequence sampleLayout allocEntry 2 rfl

/-- Counterexample to C4 as stated: emission does emit a call sequence for an
over-budget leaf descriptor (argument_count = 5, is_float = false) when the
call-site argument count matches; the budget is not checked at emission. -/
theorem c4_counterexample :
    (CallInternal sampleLayout overBudgetLeaf 5).isSome = true := by decide

/-- C4 amended: the over-budget leaf descriptor is rejected fatally at
resolution under simulation (GetEntryPoint returns no handle), while emission
itself checks only arity and emits the call sequence. -/
theorem c4_amended_budget_at_resolution (redirect : Nat → CallKind → Int → Nat)
    (layout : ThreadLayout) (e : RuntimeEntry) (hleaf : e.is_leaf = true)
    (hfloat : e.is_float = false) (h5 : e.argument_count = 5) :
    GetEntryPoint redirect true e = none ∧
    (CallInternal layout e 5).isSome = true := by
  constructor
  · simp [GetEntryPoint, hleaf, hfloat, h5]
  · simp [CallInternal, hleaf, h5]

/-- Witness for the amended C4, at the concrete over-budget descriptor. -/
theorem c4_witness :
    GetEntryPoint (fun a _ _ => a) true overBudgetLeaf = none ∧
    (CallInternal sampleLayout overBudgetLeaf 5).isSome = true :=
  c4_amended_budget_at_resolution (fun a _ _ => a) sampleLayout overBudgetLeaf
    rfl rfl rfl

/-- C5: under simulation a descriptor within the leaf budget resolves to the
redirection handle keyed by (function_pointer, call_kind, argument_count),
and the call kind is kRuntimeCall for non-leaf, kLeafRuntimeCall for integer
leaf, and kLeafFloatRuntimeCall for float leaf descriptors. -/
theorem c5_redirect_key (redirect : Nat → CallKind → Int → Nat)
    (e : RuntimeEntry) (h0 : 0 ≤ e.argument_count)
    (hbudget : e.is_leaf = true →
      (if e.is_float then e.argument_count ≤ 2 else e.argument_count ≤ 4)) :
    GetEntryPoint redirect true e =
      some (redirect e.function_pointer (callKindOf e) e.argument_count) ∧
    (e.is_leaf = false → callKindOf e = CallKind.kRuntimeCall) ∧
    (e.is_leaf = true → e.is_float = false →
      callKindOf e = CallKind.kLeafRuntimeCall) ∧
    (e.is_leaf = true → e.is_float = true →
      callKindOf e = CallKind.kLeafFloatRuntimeCall) := by
  refine ⟨?_, ?_, ?_, ?_⟩
  · cases hl : e.is_leaf
    · simp [GetEntryPoint, hl, h0]
    · have hb := hbudget hl
      cases hf : e.is_float
      · rw [hf] at hb
        simp at hb
        simp [GetEntryPoint, hl, hf, h0, hb]
      · rw [hf] at hb
        simp at hb
        simp [GetEntryPoint, hl, hf, h0, hb]
  · intro hl
    simp [callKindOf, hl]
  · intro hl hf
    simp [callKindOf, hl, hf]
  · intro hl hf
    simp [callKindOf, hl, hf]

/-- Witness for C5: Scenario B, the leaf float descriptor Sine with one
argument resolves to the handle keyed by kLeafFloatRuntimeCall and count 1. -/
theorem c5_witness :
    GetEntryPoint (fun a _ n => a + 1000 * n.toNat) true sineEntry =
      some 1200 ∧
    (sineEntry.is_leaf = false → callKindOf sineEntry = CallKind.kRuntimeCall) ∧
    (sineEntry.is_leaf = true → sineEntry.is_float = false →
      callKindOf sineEntry = CallKind.kLeafRuntimeCall) ∧
    (sineEntry.is_leaf = true → sineEntry.is_float = true →
      callKindOf sineEntry = CallKind.kLeafFloatRuntimeCall) :=
  c5_redirect_key (fun a _ n => a + 1000 * n.toNat) sineEntry
    (by decide) (by decide)

/-- C6: in normal (non-simulation) mode resolution returns the descriptor's
function pointer unchanged, for every descriptor, with no failure path. -/
theorem c6_normal_mode_identity (redirect : Nat → CallKind → Int → Nat)
    (e : RuntimeEntry) :
    GetEntryPoint redirect false e = some e.function_pointer := rfl

/-- C7: emission for a leaf descriptor with a mismatched argument count fails
the fatal arity assertion and emits nothing, while emission for a non-leaf
descriptor performs no arity check and always emits a sequence, whatever the
argument count. -/
theorem c7_arity_check (layout : ThreadLayout) (e : RuntimeEntry)
    (argument_count : Int) :
    (e.is_leaf = true → argument_count ≠ e.argument_count →
      CallInternal layout e argument_count = none) ∧
    (e.is_leaf = false →
      (CallInternal layout e argument_count).isSome = true) := by
  constructor
  · intro hleaf hne
    simp [CallInternal, hleaf, hne]
  · intro hnl
    simp [CallInternal, hnl]

/-- Witness for C7: a leaf descriptor of arity 1 called with 3 is rejected;
the non-leaf Alloc emits even though 7 differs from its declared arity 2. -/
theorem c7_witness :
    CallInternal sampleLayout leafEntry 3 = none ∧
    (CallInternal sampleLayout allocEntry 7).isSome = true :=
  ⟨(c7_arity_check sampleLayout leafEntry 3).1 rfl (by decide),
   (c7_arity_check sampleLayout allocEntry 7).2 rfl⟩

/-- C8: the build-time assertions of the register convention contract hold
for the architecture's register assignment: THR, NULL_REG,
WRITE_BARRIER_MASK and DISPATCH_TABLE_REG are callee-saved, and PP is not an
ABI-preserved register. -/
theorem c8_register_contract :
    IsCalleeSavedRegister THR = true ∧
    IsCalleeSavedRegister NULL_REG = true ∧
    IsCalleeSavedRegister WRITE_BARRIER_MASK = true ∧
    IsCalleeSavedRegister DISPATCH_TABLE_REG = true ∧
    IsAbiPreservedRegister PP = false := by decide

/-- C9: in a fixed mode resolution is a deterministic, side-effect-free
function of the descriptor's function pointer, argument count and flags: two
descriptors agreeing on those fields (the diagnostic name may differ) resolve
to the same target. -/
theorem c9_resolution_deterministic (redirect : Nat → CallKind → Int → Nat)
    (usingSimulator : Bool) (d1 d2 : RuntimeEntry)
    (hfp : d1.function_pointer = d2.function_pointer)
    (hargc : d1.argument_count = d2.argument_count)
    (hleaf : d1.is_leaf = d2.is_leaf)
    (hfloat : d1.is_float = d2.is_float) :
    GetEntryPoint redirect usingSimulator d1 =
      GetEntryPoint redirect usingSimulator d2 := by
  simp only [GetEntryPoint, callKindOf, hfp, hargc, hleaf, hfloat]

/-- Witness for C9: two descriptors differing only in their name resolve
identically under simulation. -/
theorem c9_witness :
    GetEntryPoint (fun a _ _ => a + 7) true
      { name := "A", function_pointer := 300, argument_count := 1,
        is_leaf := true, is_float := false } =
    GetEntryPoint (fun a _ _ => a + 7) true
      { name := "B", function_pointer := 300, argument_count := 1,
        is_leaf := true, is_float := false } :=
  c9_resolution_deterministic (fun a _ _ => a + 7) true _ _ rfl rfl rfl rfl

/-- C10: in the emitted leaf sequence the fourth instruction jumps through
the same scratch register that was loaded once from the descriptor's
per-thread slot, and at the moment of the jump the VM-tag slot holds exactly
that register's value: the mid-call tag equals the jump target, both being
the entry address read from the per-thread table. -/
theorem c10_tag_is_jump_target (layout : ThreadLayout) (e : RuntimeEntry)
    (argument_count : Int) (s0 : MachineState) (hleaf : e.is_leaf = true)
    (harity : argument_count = e.argument_count) :
    ∀ l, CallInternal layout e argument_count = some l →
      l[3]? = some (Instr.jalr TMP2) ∧
      (execList s0 (l.take 3)).regs TMP2
        = s0.mem (s0.regs THR + layout.offsetFromThread e) ∧
      (execList s0 (l.take 3)).mem
          ((execList s0 (l.take 3)).regs THR + layout.vm_tag_offset)
        = (execList s0 (l.take 3)).regs TMP2 := by
  intro l hl
  have h : CallInternal layout e argument_count =
      some [Instr.lx TMP2 THR (layout.offsetFromThread e),
            Instr.sx TMP2 THR layout.vm_tag_offset,
            Instr.reserveAlignedFrameSpace 0,
            Instr.jalr TMP2,
            Instr.li TMP2 kDartTagId,
            Instr.sx TMP2 THR layout.vm_tag_offset] := by
    simp [CallInternal, hleaf, harity]
  rw [h] at hl
  cases hl
  refine ⟨rfl, ?_, ?_⟩ <;>
    simp [execList, step, setReg, store, THR, TMP2]

/-- Witness for C10, at a concrete layout, descriptor and machine state. -/
theorem c10_witness :
    (([Instr.lx TMP2 THR 64, Instr.sx TMP2 THR 8,
       Instr.reserveAlignedFrameSpace 0, Instr.jalr TMP2,
       Instr.li TMP2 kDartTagId, Instr.sx TMP2 THR 8] : List Instr))[3]?
        = some (Instr.jalr TMP2) ∧
    (execList sampleState
        (([Instr.lx TMP2 THR 64, Instr.sx TMP2 THR 8,
           Instr.reserveAlignedFrameSpace 0, Instr.jalr TMP2,
           Instr.li TMP2 kDartTagId, Instr.sx TMP2 THR 8] : List Instr).take 3)).regs TMP2
        = sampleState.mem (sampleState.regs THR + sampleLayout.offsetFromThread leafEntry) ∧
    (execList sampleState
        (([Instr.lx TMP2 THR 64, Instr.sx TMP2 THR 8,
           Instr.reserveAlignedFrameSpace 0, Instr.jalr TMP2,
           Instr.li TMP2 kDartTagId, Instr.sx TMP2 THR 8] : List Instr).take 3)).mem
          ((execList sampleState
            (([Instr.lx TMP2 THR 64, Instr.sx TMP2 THR 8,
               Instr.reserveAlignedFrameSpace 0, Instr.jalr TMP2,
               Instr.li TMP2 kDartTagId, Instr.sx TMP2 THR 8] : List Instr).take 3)).regs THR
            + sampleLayout.vm_tag_offset)
        = (execList sampleState
            (([Instr.lx TMP2 THR 64, Instr.sx TMP2 THR 8,
               Instr.reserveAlignedFrameSpace 0, Instr.jalr TMP2,
               Instr.li TMP2 kDartTagId, Instr.sx TMP2 THR 8] : List Instr).take 3)).regs TMP2 :=
  c10_tag_is_jump_target sampleLayout leafEntry 1 sampleState rfl rfl _ rfl

end RuntimeEntryRiscv
